import Mathlib

/-!
Verification of the AI-Project lead-capture frontend.

Shallow embedding of the two source files:
- `LeadForm` (src/unnamed/part_000, first document): the mutable draft
  (`formData`), the `handleSubmit` handler with its consent guard, the
  scoring call and the reset-to-initial behaviour.
- `LeadsTable` (src/unnamed/part_000, second document): `getScoreTag` and
  `exportToCSV`.
- `App` (src/AI-Lead-Frontend/src/App.jsx): the application shell owning the
  `leads` list and `handleLeadSubmit`.

JavaScript values that can be a number, `null` or `undefined` (the scores
coming back from the scorer) are modelled by `JSVal`, with JS numbers
modelled as rationals.  Form input values are strings, exactly as the DOM
delivers them.  Effects (the HTTP request, `alert`, the CSV download, the
toast) are modelled as explicit fields of outcome structures.
-/

namespace LeadApp

/-- A JavaScript value in a score position: a number, `null` or `undefined`.
JS numbers are modelled as rationals. -/
inductive JSVal where
  | num (q : ℚ)
  | null
  | undefined
deriving DecidableEq, Repr

/-- The draft record held by `LeadForm` in its `formData` state
(src/unnamed/part_000 lines 16-27).  All text inputs hold strings; the
consent checkbox holds a boolean. -/
structure FormData where
  phone : String
  email : String
  creditScore : String
  ageGroup : String
  maritalStatus : String
  comments : String
  consent : Bool
  annualIncome : String
  netWorth : String
  employmentStatus : String
deriving DecidableEq, Repr

/-- The initial (empty) draft, as set by `useState` (lines 16-27) and by the
reset in `handleSubmit` (lines 57-68): every string field empty, consent
false. -/
def initialFormData : FormData :=
  { phone := "", email := "", creditScore := "", ageGroup := "",
    maritalStatus := "", comments := "", consent := false,
    annualIncome := "", netWorth := "", employmentStatus := "" }

/-- The body returned by the scoring endpoint, destructured in
`handleSubmit` as `const { initialScore, rerankedScore } = response.data`
(line 41). -/
structure ScoreResponse where
  initialScore : JSVal
  rerankedScore : JSVal
deriving DecidableEq, Repr

/-- A finalized lead record: the draft's fields spread together with the two
scores (`const newLead = { ...formData, initialScore, rerankedScore }`,
lines 43-47). -/
structure Lead where
  phone : String
  email : String
  creditScore : String
  ageGroup : String
  maritalStatus : String
  comments : String
  consent : Bool
  annualIncome : String
  netWorth : String
  employmentStatus : String
  initialScore : JSVal
  rerankedScore : JSVal
deriving DecidableEq, Repr

/-- `{ ...formData, initialScore, rerankedScore }` (lines 43-47). -/
def mkLead (fd : FormData) (resp : ScoreResponse) : Lead :=
  { phone := fd.phone, email := fd.email, creditScore := fd.creditScore,
    ageGroup := fd.ageGroup, maritalStatus := fd.maritalStatus,
    comments := fd.comments, consent := fd.consent,
    annualIncome := fd.annualIncome, netWorth := fd.netWorth,
    employmentStatus := fd.employmentStatus,
    initialScore := resp.initialScore, rerankedScore := resp.rerankedScore }

/-- Result of the `axios.post` scoring call (line 40): either a response
body, or the thrown error caught at line 69. -/
inductive ScoringResult where
  | success (resp : ScoreResponse)
  | failure
deriving DecidableEq, Repr

/-- Observable outcome of one run of `handleSubmit` (lines 31-73):
the draft afterwards, the record passed to `onSubmit` (if any), whether the
HTTP request was issued, and the `alert` message (if any). -/
structure SubmitOutcome where
  newFormData : FormData
  submitted : Option Lead
  requestSent : Bool
  alerted : Option String
deriving DecidableEq, Repr

/-- `handleSubmit` (src/unnamed/part_000 lines 31-73).  The consent guard
(lines 34-37) returns before any request; on a successful scoring call the
new lead is handed to `onSubmit` and the draft is reset (lines 39-68); on a
caught error an alert is shown and nothing else changes (lines 69-72). -/
def handleSubmit (formData : FormData) (scoring : ScoringResult) :
    SubmitOutcome :=
  if !formData.consent then
    { newFormData := formData, submitted := none, requestSent := false,
      alerted := some "Please consent to data processing." }
  else
    match scoring with
    | .success resp =>
        { newFormData := initialFormData,
          submitted := some (mkLead formData resp),
          requestSent := true, alerted := none }
    | .failure =>
        { newFormData := formData, submitted := none, requestSent := true,
          alerted := some "Something went wrong while submitting. Please check your FastAPI backend." }

/-- `handleLeadSubmit` in App.jsx (lines 8-11):
`setLeads((prev) => [...prev, leadData])`. -/
def handleLeadSubmit (leads : List Lead) (leadData : Lead) : List Lead :=
  leads ++ [leadData]

/-- Effect of one form submission on the application shell's `leads` list:
if `handleSubmit` called `onSubmit` with a lead, App appends it; otherwise
the list is untouched. -/
def stepLeads (leads : List Lead) (fd : FormData) (scoring : ScoringResult) :
    List Lead :=
  match (handleSubmit fd scoring).submitted with
  | some l => handleLeadSubmit leads l
  | none => leads

/-- One observable application step over the shell's state: a form
submission (which goes through `stepLeads`), or a CSV export (which never
touches the `leads` list). -/
inductive AppStep : List Lead → List Lead → Prop where
  | submit (leads : List Lead) (fd : FormData) (scoring : ScoringResult) :
      AppStep leads (stepLeads leads fd scoring)
  | exportCsv (leads : List Lead) : AppStep leads leads

/-- The shell's `leads` states reachable from the initial `useState([])`
(App.jsx line 6) by application steps. -/
inductive Reachable : List Lead → Prop where
  | init : Reachable []
  | step {leads leads' : List Lead} :
      Reachable leads → AppStep leads leads' → Reachable leads'

/-- The age-group options offered by the form (lines 146-151). -/
def validAgeGroups : List String := ["18-25", "26-35", "36-50", "51+"]

/-- The marital-status options offered by the form (lines 164-167). -/
def validMaritalStatuses : List String :=
  ["Single", "Married", "Married with Kids"]

/-- The employment-status options offered by the form (lines 206-210). -/
def validEmploymentStatuses : List String :=
  ["Employed", "Unemployed", "Student", "Self-employed"]

/-- The native constraint on the credit-score input
(`type="number" required min="300" max="850"`, lines 125-134, default step
1): the field holds the decimal representation of an integer between 300
and 850. -/
def creditScoreValid (s : String) : Prop :=
  ∃ n : ℤ, 300 ≤ n ∧ n ≤ 850 ∧ s = toString n

/-- The browser's native form validation, taken from the JSX attributes:
every `required` input nonempty, the credit score in range (lines 125-134),
each select holding one of its options, and the `required` consent checkbox
checked (lines 230-236).  `handleSubmit` only runs on drafts satisfying
this. -/
def formValid (fd : FormData) : Prop :=
  fd.phone ≠ "" ∧ fd.email ≠ "" ∧ creditScoreValid fd.creditScore ∧
  fd.ageGroup ∈ validAgeGroups ∧ fd.maritalStatus ∈ validMaritalStatuses ∧
  fd.annualIncome ≠ "" ∧ fd.netWorth ≠ "" ∧
  fd.employmentStatus ∈ validEmploymentStatuses ∧ fd.consent = true

/-- The category a score cell renders as: the text of the span returned by
`getScoreTag` (lines 269-274). -/
inductive Tag where
  | NA
  | High
  | Mid
  | Low
deriving DecidableEq, Repr

/-- `getScoreTag` (src/unnamed/part_000 lines 269-274): `null` and
`undefined` give N/A; then `score >= 70` High, `score >= 40` Mid, else
Low. -/
def getScoreTag : JSVal → Tag
  | .null => .NA
  | .undefined => .NA
  | .num q => if 70 ≤ q then .High else if 40 ≤ q then .Mid else .Low

/-- The two score cells of a table row (lines 377-378):
`getScoreTag(lead.initialScore)` and `getScoreTag(lead.rerankedScore)`. -/
def tableScoreCells (l : Lead) : Tag × Tag :=
  (getScoreTag l.initialScore, getScoreTag l.rerankedScore)

/-- The CSV header cells (lines 283-293). -/
def headers : List String :=
  ["Phone", "Email", "Credit Score", "Age Group", "Marital Status",
   "Comments", "Consent", "Initial Score", "Reranked Score"]

/-- JS number-to-string conversion as used by `Array.prototype.join`.
Integral values print exactly as in JS; non-integral values (never produced
by the claims' inputs) are approximated by the rational printer. -/
def jsNumToString (q : ℚ) : String :=
  if q.den = 1 then toString q.num else toString q

/-- One score cell of a CSV row: `lead.initialScore ?? "N/A"` (lines
303-304) followed by `join`'s stringification — the number's string unless
the value is `null` or `undefined`, which both give "N/A". -/
def csvCell : JSVal → String
  | .num q => jsNumToString q
  | .null => "N/A"
  | .undefined => "N/A"

/-- One CSV row's cells (lines 295-305): the lead's fields in header order,
comments wrapped in double quotes with no escaping, consent as Yes/No,
scores through `?? "N/A"`. -/
def csvRow (lead : Lead) : List String :=
  [lead.phone, lead.email, lead.creditScore, lead.ageGroup,
   lead.maritalStatus, "\"" ++ lead.comments ++ "\"",
   if lead.consent then "Yes" else "No",
   csvCell lead.initialScore, csvCell lead.rerankedScore]

/-- `csvContent` (lines 307-309):
`[headers, ...rows].map((row) => row.join(",")).join("\n")`. -/
def csvContent (leads : List Lead) : String :=
  String.intercalate "\n"
    ((headers :: leads.map csvRow).map (String.intercalate ","))

/-- Observable outcome of `exportToCSV` (lines 280-321): the triggered
download (filename and document), if any, and whether the success toast was
shown. -/
structure ExportOutcome where
  download : Option (String × String)
  toastShown : Bool
deriving DecidableEq, Repr

/-- `exportToCSV` (src/unnamed/part_000 lines 280-321): returns immediately
on an empty list (line 281); otherwise builds the CSV, downloads it as
`leads_export.csv` and shows the toast. -/
def exportToCSV (leads : List Lead) : ExportOutcome :=
  if leads.length = 0 then { download := none, toastShown := false }
  else { download := some ("leads_export.csv", csvContent leads),
         toastShown := true }

/-- The single-record example from the spec's testable properties: the
record the form produces from phone "A", email "a@x.com", credit score 700,
etc., scored 80 with a `null` reranked score. -/
def exampleLead : Lead :=
  { phone := "A", email := "a@x.com", creditScore := "700",
    ageGroup := "18-25", maritalStatus := "Single", comments := "hi",
    consent := true, annualIncome := "1", netWorth := "1",
    employmentStatus := "Employed",
    initialScore := .num 80, rerankedScore := .null }

/-- A concrete valid consenting draft, used by witnesses. -/
def exampleDraft : FormData :=
  { phone := "A", email := "a@x.com", creditScore := "700",
    ageGroup := "18-25", maritalStatus := "Single", comments := "hi",
    consent := true, annualIncome := "1", netWorth := "1",
    employmentStatus := "Employed" }

/-- A concrete scoring response, used by witnesses. -/
def exampleResp : ScoreResponse :=
  { initialScore := .num 80, rerankedScore := .null }

end LeadApp

namespace LeadApp

/-- Helper: one submission either leaves the shell's list unchanged, or the
draft had consent and the call succeeded and exactly that one finalized
record is appended. -/
lemma stepLeads_shape (leads : List Lead) (fd : FormData)
    (scoring : ScoringResult) :
    stepLeads leads fd scoring = leads ∨
    (∃ resp, scoring = .success resp ∧ fd.consent = true ∧
      stepLeads leads fd scoring = leads ++ [mkLead fd resp]) := by
  cases hc : fd.consent <;> cases scoring <;>
    simp [stepLeads, handleSubmit, handleLeadSubmit, hc]

/-- Helper: every application step appends some (possibly empty) block of
records, each coming from a consenting draft and a successful scoring
response. -/
lemma appStep_added (leads leads' : List Lead) (h : AppStep leads leads') :
    ∃ added, leads' = leads ++ added ∧
      ∀ l ∈ added, ∃ fd resp, fd.consent = true ∧ l = mkLead fd resp := by
  cases h with
  | submit fd scoring =>
      rcases stepLeads_shape leads fd scoring with he | ⟨resp, -, hc, he⟩
      · exact ⟨[], by simp [he], by simp⟩
      · exact ⟨[mkLead fd resp], he, by
          intro l hl
          simp only [List.mem_singleton] at hl
          exact ⟨fd, resp, hc, hl⟩⟩
  | exportCsv => exact ⟨[], by simp, by simp⟩

/-- Helper: the example draft satisfies the form's native constraints. -/
lemma exampleDraft_valid : formValid exampleDraft :=
  ⟨by decide, by decide, ⟨700, by norm_num, by norm_num, by decide⟩,
   by decide, by decide, by decide, by decide, by decide, rfl⟩

/-- C1: for every valid draft with consent, a successful scoring response
makes `handleSubmit` hand exactly `mkLead fd resp` to the shell, the shell's
list grows by that one record at the end (earlier records untouched), the
record's scores are the response values and its other fields are the
draft's, and the draft is reset to the initial empty state. -/
theorem submit_success_appends_one (leads : List Lead) (fd : FormData)
    (resp : ScoreResponse) (hv : formValid fd) :
    (handleSubmit fd (.success resp)).submitted = some (mkLead fd resp) ∧
    stepLeads leads fd (.success resp) = leads ++ [mkLead fd resp] ∧
    (mkLead fd resp).initialScore = resp.initialScore ∧
    (mkLead fd resp).rerankedScore = resp.rerankedScore ∧
    (mkLead fd resp).phone = fd.phone ∧
    (mkLead fd resp).email = fd.email ∧
    (mkLead fd resp).creditScore = fd.creditScore ∧
    (mkLead fd resp).ageGroup = fd.ageGroup ∧
    (mkLead fd resp).maritalStatus = fd.maritalStatus ∧
    (mkLead fd resp).comments = fd.comments ∧
    (mkLead fd resp).consent = fd.consent ∧
    (mkLead fd resp).annualIncome = fd.annualIncome ∧
    (mkLead fd resp).netWorth = fd.netWorth ∧
    (mkLead fd resp).employmentStatus = fd.employmentStatus ∧
    (handleSubmit fd (.success resp)).newFormData = initialFormData ∧
    initialFormData.phone = "" ∧ initialFormData.email = "" ∧
    initialFormData.creditScore = "" ∧ initialFormData.ageGroup = "" ∧
    initialFormData.maritalStatus = "" ∧ initialFormData.comments = "" ∧
    initialFormData.annualIncome = "" ∧ initialFormData.netWorth = "" ∧
    initialFormData.employmentStatus = "" ∧
    initialFormData.consent = false := by
  obtain ⟨-, -, -, -, -, -, -, -, hc⟩ := hv
  refine ⟨?_, ?_, ?_⟩
  · simp [handleSubmit, hc]
  · simp [stepLeads, handleSubmit, handleLeadSubmit, hc]
  · simp [mkLead, handleSubmit, hc, initialFormData]

/-- C1 witness: the concrete example draft is valid and its submission
appends exactly its finalized record to the empty shell. -/
theorem submit_success_appends_one_witness :
    formValid exampleDraft ∧
    stepLeads [] exampleDraft (.success exampleResp) =
      [] ++ [mkLead exampleDraft exampleResp] :=
  ⟨exampleDraft_valid,
   (submit_success_appends_one [] exampleDraft exampleResp
      exampleDraft_valid).2.1⟩

/-- C2: invariant of the shell's sequence — every application step only
appends (existing records are never edited or deleted), a submission with
consent unchecked or a failed scoring call leaves the sequence exactly as
it was, and whenever a submission changes the sequence at all, the draft
had consent checked, the scoring result of that very step was a success,
and exactly the one record finalized from that draft and that response was
appended at the end. -/
theorem leads_sequence_invariant (leads : List Lead) (fd : FormData)
    (scoring : ScoringResult) :
    (∀ leads', AppStep leads leads' → ∃ added, leads' = leads ++ added) ∧
    (fd.consent = false → stepLeads leads fd scoring = leads) ∧
    (scoring = .failure → stepLeads leads fd scoring = leads) ∧
    (stepLeads leads fd scoring = leads ∨
      (fd.consent = true ∧ ∃ resp, scoring = .success resp ∧
        stepLeads leads fd scoring = leads ++ [mkLead fd resp])) := by
  refine ⟨fun leads' h => ?_, fun hc => ?_, fun hf => ?_, ?_⟩
  · obtain ⟨added, ha, -⟩ := appStep_added leads leads' h
    exact ⟨added, ha⟩
  · simp [stepLeads, handleSubmit, hc]
  · subst hf
    cases hc : fd.consent <;> simp [stepLeads, handleSubmit, hc]
  · rcases stepLeads_shape leads fd scoring with he | ⟨resp, hs, hc, he⟩
    · exact Or.inl he
    · exact Or.inr ⟨hc, resp, hs, he⟩

/-- C2 witness: a consent-false draft with a successful scoring result, and
a consenting draft with a failed one, both leave concrete sequences exactly
unchanged. -/
theorem leads_sequence_invariant_witness :
    initialFormData.consent = false ∧
    stepLeads [] initialFormData (.success exampleResp) = [] ∧
    stepLeads [exampleLead] exampleDraft .failure = [exampleLead] :=
  ⟨rfl,
   (leads_sequence_invariant [] initialFormData (.success exampleResp)).2.1
     rfl,
   (leads_sequence_invariant [exampleLead] exampleDraft .failure).2.2.1
     rfl⟩

/-- C3: on a non-empty sequence, export downloads `leads_export.csv` whose
content is the fixed 9-column header line followed, newline-separated, by
one comma-joined row per record in order; each row renders consent as
Yes/No, absent (null or undefined) scores as N/A, and comments wrapped in
double quotes with no escaping; on the spec's single example record the
document's second line is exactly
`A,a@x.com,700,18-25,Single,"hi",Yes,80,N/A`. -/
theorem exportToCSV_nonempty_csv (leads : List Lead) (h : leads ≠ []) :
    (exportToCSV leads).download =
      some ("leads_export.csv", csvContent leads) ∧
    (exportToCSV leads).toastShown = true ∧
    csvContent leads = String.intercalate "\n"
      ("Phone,Email,Credit Score,Age Group,Marital Status,Comments,Consent,Initial Score,Reranked Score"
        :: leads.map (fun l => String.intercalate "," (csvRow l))) ∧
    (∀ l : Lead, String.intercalate "," (csvRow l) =
      l.phone ++ "," ++ l.email ++ "," ++ l.creditScore ++ "," ++
      l.ageGroup ++ "," ++ l.maritalStatus ++ "," ++
      ("\"" ++ l.comments ++ "\"") ++ "," ++
      (if l.consent then "Yes" else "No") ++ "," ++
      csvCell l.initialScore ++ "," ++ csvCell l.rerankedScore) ∧
    csvCell .null = "N/A" ∧ csvCell .undefined = "N/A" ∧
    csvContent [exampleLead] =
      "Phone,Email,Credit Score,Age Group,Marital Status,Comments,Consent,Initial Score,Reranked Score\nA,a@x.com,700,18-25,Single,\"hi\",Yes,80,N/A" := by
  refine ⟨?_, ?_, ?_, fun l => rfl, rfl, rfl, by decide⟩
  · simp [exportToCSV, List.length_eq_zero, h]
  · simp [exportToCSV, List.length_eq_zero, h]
  · have hh : String.intercalate "," headers =
        "Phone,Email,Credit Score,Age Group,Marital Status,Comments,Consent,Initial Score,Reranked Score" := by
      decide
    simp only [csvContent, List.map_cons, List.map_map, Function.comp_def, hh]

/-- C3 witness: the singleton example list is non-empty and its export
downloads exactly the computed CSV document. -/
theorem exportToCSV_nonempty_csv_witness :
    ([exampleLead] : List Lead) ≠ [] ∧
    (exportToCSV [exampleLead]).download =
      some ("leads_export.csv", csvContent [exampleLead]) :=
  ⟨by decide, (exportToCSV_nonempty_csv [exampleLead] (by decide)).1⟩

/-- C4: score-tag is total over {null, undefined, number} and categorizes
every number at least 70 as High, in [40, 70) as Mid, below 40 as Low, an
absent score as N/A; concretely 70 is High, 69.999 Mid, 40 Mid, 39.999 Low
and undefined N/A. -/
theorem getScoreTag_categorization :
    (∀ q : ℚ, 70 ≤ q → getScoreTag (.num q) = .High) ∧
    (∀ q : ℚ, 40 ≤ q → q < 70 → getScoreTag (.num q) = .Mid) ∧
    (∀ q : ℚ, q < 40 → getScoreTag (.num q) = .Low) ∧
    getScoreTag .undefined = .NA ∧
    getScoreTag (.num 70) = .High ∧
    getScoreTag (.num (69999 / 1000)) = .Mid ∧
    getScoreTag (.num 40) = .Mid ∧
    getScoreTag (.num (39999 / 1000)) = .Low := by
  refine ⟨fun q h => by simp [getScoreTag, h],
          fun q h1 h2 => by simp [getScoreTag, h1, not_le.mpr h2],
          fun q h => ?_, rfl, ?_, ?_, ?_, ?_⟩
  · have h2 : q < 70 := h.trans (by norm_num)
    simp [getScoreTag, not_le.mpr h, not_le.mpr h2]
  · norm_num [getScoreTag]
  · norm_num [getScoreTag]
  · norm_num [getScoreTag]
  · norm_num [getScoreTag]

/-- C4 witness: 80 is at least 70 and is tagged High. -/
theorem getScoreTag_categorization_witness :
    (70 : ℚ) ≤ 80 ∧ getScoreTag (.num 80) = .High :=
  ⟨by norm_num, getScoreTag_categorization.1 80 (by norm_num)⟩

/-- C5: with consent unchecked, `handleSubmit` hands nothing to the shell,
sends no scoring request, leaves the draft exactly as it was, leaves the
shell's list unchanged, and alerts the consent message. -/
theorem submit_consent_false_noop (fd : FormData) (scoring : ScoringResult)
    (leads : List Lead) (h : fd.consent = false) :
    (handleSubmit fd scoring).submitted = none ∧
    (handleSubmit fd scoring).requestSent = false ∧
    (handleSubmit fd scoring).newFormData = fd ∧
    stepLeads leads fd scoring = leads ∧
    (handleSubmit fd scoring).alerted =
      some "Please consent to data processing." := by
  simp [handleSubmit, stepLeads, h]

/-- C5 witness: the initial draft has consent false and its submission
leaves the empty shell empty. -/
theorem submit_consent_false_noop_witness :
    initialFormData.consent = false ∧
    stepLeads [] initialFormData .failure = [] :=
  ⟨rfl, (submit_consent_false_noop initialFormData .failure [] rfl).2.2.2.1⟩

/-- C6: a scoring-call failure hands nothing to the shell, leaves the
shell's list unchanged, leaves the draft unchanged for retry, and surfaces
an alert. -/
theorem submit_failure_frame (fd : FormData) (leads : List Lead) :
    (handleSubmit fd .failure).submitted = none ∧
    (handleSubmit fd .failure).newFormData = fd ∧
    stepLeads leads fd .failure = leads ∧
    (handleSubmit fd .failure).alerted.isSome = true := by
  cases hc : fd.consent <;> simp [handleSubmit, stepLeads, hc]

/-- C7: two consenting submissions that both succeed append their two
records in submission order, and `handleLeadSubmit` always appends at the
end of the list. -/
theorem submit_order_preserved (leads : List Lead) (fd1 fd2 : FormData)
    (r1 r2 : ScoreResponse) (h1 : fd1.consent = true)
    (h2 : fd2.consent = true) :
    stepLeads (stepLeads leads fd1 (.success r1)) fd2 (.success r2) =
      leads ++ [mkLead fd1 r1, mkLead fd2 r2] ∧
    ∀ (ls : List Lead) (l : Lead), handleLeadSubmit ls l = ls ++ [l] := by
  constructor
  · simp [stepLeads, handleSubmit, handleLeadSubmit, h1, h2]
  · intro ls l
    rfl

/-- C7 witness: submitting the example draft twice from the empty shell
yields its record twice, in order. -/
theorem submit_order_preserved_witness :
    exampleDraft.consent = true ∧
    stepLeads (stepLeads [] exampleDraft (.success exampleResp))
        exampleDraft (.success exampleResp) =
      [] ++ [mkLead exampleDraft exampleResp,
             mkLead exampleDraft exampleResp] :=
  ⟨rfl, (submit_order_preserved [] exampleDraft exampleDraft
          exampleResp exampleResp rfl rfl).1⟩

/-- C8: exporting an empty sequence is a no-op — no download is triggered
and no success toast is shown. -/
theorem exportToCSV_empty_noop :
    (exportToCSV ([] : List Lead)).download = none ∧
    (exportToCSV ([] : List Lead)).toastShown = false :=
  ⟨rfl, rfl⟩

/-- C9: every record emitted by a submission of a draft passing the form's
native constraints has a creditScore that is the decimal representation of
an integer between 300 and 850 inclusive. -/
theorem record_creditScore_in_range (fd : FormData) (resp : ScoreResponse)
    (l : Lead) (hv : formValid fd)
    (hs : (handleSubmit fd (.success resp)).submitted = some l) :
    ∃ n : ℤ, 300 ≤ n ∧ n ≤ 850 ∧ l.creditScore = toString n := by
  obtain ⟨-, -, ⟨n, h3, h8, he⟩, -, -, -, -, -, hc⟩ := hv
  have hl : l = mkLead fd resp := by
    simp [handleSubmit, hc] at hs
    exact hs.symm
  exact ⟨n, h3, h8, by simp [hl, mkLead, he]⟩

/-- C9 witness: the example draft is valid, its submission emits the
example record, and that record's creditScore is the integer 700 in
range. -/
theorem record_creditScore_in_range_witness :
    formValid exampleDraft ∧
    (∃ n : ℤ, 300 ≤ n ∧ n ≤ 850 ∧
      exampleLead.creditScore = toString n) :=
  ⟨exampleDraft_valid,
   record_creditScore_in_range exampleDraft exampleResp exampleLead
     exampleDraft_valid (by decide)⟩

/-- C10: score-tag sends a null score to N/A exactly like an undefined one,
so the table's reranked-score cell for the example record (whose
rerankedScore came back null) shows N/A rather than Low. -/
theorem getScoreTag_null_na :
    getScoreTag .null = .NA ∧
    getScoreTag .null = getScoreTag .undefined ∧
    (tableScoreCells exampleLead).2 = .NA :=
  ⟨rfl, rfl, rfl⟩

end LeadApp
